import Mathlib

/-!
Verification of the f1tenth_gym vehicle-dynamics core
(src/gym/f110_gym/envs/dynamic_models.py) against its natural-language
specification.

The Python module is shallowly embedded over an arbitrary linear ordered
field K.  The transcendental library calls (np.cos, np.sin, np.tan) are
abstracted as a record of functions, so every definition stays computable
and can be instantiated at K = ℚ for concrete evaluation, or at K = ℝ with
the genuine trigonometric functions for counterexamples that hinge on the
actual behaviour of cosine.
-/

namespace DynamicModels

/-- Record of the trigonometric primitives the Python code pulls from
numpy/math.  The embedding is parametric in them. -/
structure Trig (K : Type) where
  cos : K → K
  sin : K → K
  tan : K → K

variable {K : Type} [LinearOrderedField K]

/-- A trig record over ℚ used only to instantiate theorems whose content is
independent of what the trigonometric functions return. -/
def ratTrig : Trig ℚ where
  cos := fun _ => 1
  sin := fun _ => 0
  tan := fun _ => 0

/-- The real trig record: the actual meaning of np.cos/np.sin/np.tan. -/
noncomputable def realTrig : Trig ℝ where
  cos := Real.cos
  sin := Real.sin
  tan := Real.tan

/-- Embedding of accl_constraints (dynamic_models.py lines 30-60).
Python:
  if vel > v_switch: pos_limit = a_max*v_switch/vel else: pos_limit = a_max
  if (vel <= v_min and accl <= 0) or (vel >= v_max and accl >= 0): accl = 0.
  elif accl <= -a_max: accl = -a_max
  elif accl >= pos_limit: accl = pos_limit -/
def accl_constraints (vel accl v_switch a_max v_min v_max : K) : K :=
  let pos_limit := if v_switch < vel then a_max * v_switch / vel else a_max
  if (vel ≤ v_min ∧ accl ≤ 0) ∨ (v_max ≤ vel ∧ 0 ≤ accl) then 0
  else if accl ≤ -a_max then -a_max
  else if pos_limit ≤ accl then pos_limit
  else accl

/-- Embedding of steering_constraint (dynamic_models.py lines 62-87).
Python:
  if (steering_angle <= s_min and steering_velocity <= 0)
     or (steering_angle >= s_max and steering_velocity >= 0): sv = 0.
  elif sv <= sv_min: sv = sv_min
  elif sv >= sv_max: sv = sv_max -/
def steering_constraint (steering_angle steering_velocity s_min s_max sv_min sv_max : K) : K :=
  if (steering_angle ≤ s_min ∧ steering_velocity ≤ 0)
      ∨ (s_max ≤ steering_angle ∧ 0 ≤ steering_velocity) then 0
  else if steering_velocity ≤ sv_min then sv_min
  else if sv_max ≤ steering_velocity then sv_max
  else steering_velocity

/-- Modelled from the spec words for clamp_acceleration: the positive
acceleration ceiling is a_max at or below v_switch and a_max*v_switch/speed
above it; zero when the speed is at its floor with non-positive desired
acceleration or at its ceiling with non-negative desired acceleration;
otherwise the desired acceleration clamped into the interval
from -a_max to the positive ceiling. -/
def acclSpec (vel accl v_switch a_max v_min v_max : K) : K :=
  let ceiling := if vel ≤ v_switch then a_max else a_max * v_switch / vel
  if (vel ≤ v_min ∧ accl ≤ 0) ∨ (v_max ≤ vel ∧ 0 ≤ accl) then 0
  else max (-a_max) (min accl ceiling)

/-- Modelled from the spec words for clamp_steering: zero when the angle is
at its lower bound with non-positive desired velocity or at its upper bound
with non-negative desired velocity; otherwise the desired velocity clamped
into the interval from sv_min to sv_max. -/
def steeringSpec (steering_angle steering_velocity s_min s_max sv_min sv_max : K) : K :=
  if (steering_angle ≤ s_min ∧ steering_velocity ≤ 0)
      ∨ (s_max ≤ steering_angle ∧ 0 ≤ steering_velocity) then 0
  else max sv_min (min steering_velocity sv_max)

/-- Embedding of vehicle_dynamics_ks (dynamic_models.py lines 90-121):
the 5-state kinematic single-track model.  The raw control u_init is first
passed through the constraint layer, then
f = [x4*cos(x5), x4*sin(x5), u1, u2, x4/lwb*tan(x3)] (1-based state names,
0-based indices in the code and here). -/
def vehicle_dynamics_ks (T : Trig K) (x : Fin 5 → K) (u_init : Fin 2 → K)
    (mu C_Sf C_Sr lf lr h m I_z s_min s_max sv_min sv_max v_switch a_max v_min v_max : K) :
    Fin 5 → K :=
  let lwb := lf + lr
  let u : Fin 2 → K :=
    ![steering_constraint (x 2) (u_init 0) s_min s_max sv_min sv_max,
      accl_constraints (x 3) (u_init 1) v_switch a_max v_min v_max]
  ![x 3 * T.cos (x 4),
    x 3 * T.sin (x 4),
    u 0,
    u 1,
    x 3 / lwb * T.tan (x 2)]

/-- Embedding of vehicle_dynamics_st (dynamic_models.py lines 123-176):
the 7-state dynamic single-track model, delegating to the kinematic model
below the 0.5 m/s threshold and otherwise evaluating the linear-tire
lateral dynamics with g = 9.81. -/
def vehicle_dynamics_st (T : Trig K) (x : Fin 7 → K) (u_init : Fin 2 → K)
    (mu C_Sf C_Sr lf lr h m I_z s_min s_max sv_min sv_max v_switch a_max v_min v_max : K) :
    Fin 7 → K :=
  let g : K := 981 / 100
  let u : Fin 2 → K :=
    ![steering_constraint (x 2) (u_init 0) s_min s_max sv_min sv_max,
      accl_constraints (x 3) (u_init 1) v_switch a_max v_min v_max]
  if |x 3| < 1 / 2 then
    let lwb := lf + lr
    let x_ks : Fin 5 → K := ![x 0, x 1, x 2, x 3, x 4]
    let f_ks := vehicle_dynamics_ks T x_ks u mu C_Sf C_Sr lf lr h m I_z
      s_min s_max sv_min sv_max v_switch a_max v_min v_max
    ![f_ks 0, f_ks 1, f_ks 2, f_ks 3, f_ks 4,
      u 1 / lwb * T.tan (x 2) + x 3 / (lwb * T.cos (x 2) ^ 2) * u 0,
      0]
  else
    ![x 3 * T.cos (x 6 + x 4),
      x 3 * T.sin (x 6 + x 4),
      u 0,
      u 1,
      x 5,
      -mu * m / (x 3 * I_z * (lr + lf))
          * (lf ^ 2 * C_Sf * (g * lr - u 1 * h) + lr ^ 2 * C_Sr * (g * lf + u 1 * h)) * x 5
        + mu * m / (I_z * (lr + lf))
          * (lr * C_Sr * (g * lf + u 1 * h) - lf * C_Sf * (g * lr - u 1 * h)) * x 6
        + mu * m / (I_z * (lr + lf)) * lf * C_Sf * (g * lr - u 1 * h) * x 2,
      (mu / (x 3 ^ 2 * (lr + lf))
          * (C_Sr * (g * lf + u 1 * h) * lr - C_Sf * (g * lr - u 1 * h) * lf) - 1) * x 5
        - mu / (x 3 * (lr + lf)) * (C_Sr * (g * lf + u 1 * h) + C_Sf * (g * lr - u 1 * h)) * x 6
        + mu / (x 3 * (lr + lf)) * (C_Sf * (g * lr - u 1 * h)) * x 2]

/-- The denominator of every division evaluated on the executed path of
vehicle_dynamics_st, in source order, one list entry per division site.
First the constraint layer: accl_constraints called at line 149 with
vel = x[3] divides a_max*v_switch/vel (lines 47-48) exactly when
x[3] > v_switch, so its denominator x[3] is on the path in either branch
under that condition (steering_constraint performs no division).
Low-speed branch (|x[3]| < 0.5): the nested vehicle_dynamics_ks call at
line 158 re-runs accl_constraints on the same x[3] (line 113), repeating
that conditional division; then x[3]/lwb inside the kinematic call
(line 120), u[1]/lwb and x[3]/(lwb*cos(x[2])**2) in the analytic
yaw-acceleration term (line 159).  High-speed branch: the six divisions
of the yaw-acceleration and slip-angle rows (lines 169-174), whose
denominators are x[3]*I*(lr+lf), I*(lr+lf) twice, x[3]**2*(lr+lf) and
x[3]*(lr+lf) twice. -/
def st_denominators (T : Trig K) (x : Fin 7 → K) (lf lr I_z v_switch : K) : List K :=
  (if v_switch < x 3 then [x 3] else []) ++
    if |x 3| < 1 / 2 then
      (if v_switch < x 3 then [x 3] else [])
        ++ [lf + lr, lf + lr, (lf + lr) * T.cos (x 2) ^ 2]
    else
      [x 3 * I_z * (lr + lf), I_z * (lr + lf), I_z * (lr + lf),
        x 3 ^ 2 * (lr + lf), x 3 * (lr + lf), x 3 * (lr + lf)]

/-- Inner lemma for C8: the steering clamp is idempotent when the
steering-velocity bounds have physical signs (sv_min ≤ 0 ≤ sv_max). -/
theorem steering_constraint_idem (angle v s_min s_max sv_min sv_max : K)
    (h1 : sv_min ≤ 0) (h2 : 0 ≤ sv_max) :
    steering_constraint angle (steering_constraint angle v s_min s_max sv_min sv_max)
      s_min s_max sv_min sv_max
      = steering_constraint angle v s_min s_max sv_min sv_max := by
  simp only [steering_constraint]
  by_cases hg : (angle ≤ s_min ∧ v ≤ 0) ∨ (s_max ≤ angle ∧ 0 ≤ v)
  · rw [if_pos hg]
    rcases hg with ⟨ha, _⟩ | ⟨ha, _⟩
    · rw [if_pos (Or.inl ⟨ha, le_refl (0:K)⟩)]
    · rw [if_pos (Or.inr ⟨ha, le_refl (0:K)⟩)]
  · rw [if_neg hg]
    by_cases hv1 : v ≤ sv_min
    · rw [if_pos hv1]
      have hna : ¬ angle ≤ s_min := fun ha => hg (Or.inl ⟨ha, hv1.trans h1⟩)
      by_cases hG : (angle ≤ s_min ∧ sv_min ≤ 0) ∨ (s_max ≤ angle ∧ 0 ≤ sv_min)
      · rw [if_pos hG]
        rcases hG with ⟨ha, _⟩ | ⟨_, h0⟩
        · exact absurd ha hna
        · exact (le_antisymm h1 h0).symm
      · rw [if_neg hG, if_pos (le_refl sv_min)]
    · rw [if_neg hv1]
      by_cases hv2 : sv_max ≤ v
      · rw [if_pos hv2]
        have hnb : ¬ s_max ≤ angle := fun hb => hg (Or.inr ⟨hb, h2.trans hv2⟩)
        by_cases hG : (angle ≤ s_min ∧ sv_max ≤ 0) ∨ (s_max ≤ angle ∧ 0 ≤ sv_max)
        · rw [if_pos hG]
          rcases hG with ⟨_, h0⟩ | ⟨hb, _⟩
          · exact (le_antisymm h0 h2).symm
          · exact absurd hb hnb
        · rw [if_neg hG]
          by_cases hm : sv_max ≤ sv_min
          · rw [if_pos hm]
            exact le_antisymm (h1.trans h2) hm
          · rw [if_neg hm, if_pos (le_refl sv_max)]
      · rw [if_neg hv2, if_neg hg, if_neg hv1, if_neg hv2]

/-- Inner lemma for C8: the acceleration clamp is idempotent when a_max
and v_switch are non-negative. -/
theorem accl_constraints_idem (vel a v_switch a_max v_min v_max : K)
    (ha : 0 ≤ a_max) (hw : 0 ≤ v_switch) :
    accl_constraints vel (accl_constraints vel a v_switch a_max v_min v_max)
      v_switch a_max v_min v_max
      = accl_constraints vel a v_switch a_max v_min v_max := by
  simp only [accl_constraints]
  have hP : (0:K) ≤ (if v_switch < vel then a_max * v_switch / vel else a_max) := by
    split_ifs with h
    · exact div_nonneg (mul_nonneg ha hw) (le_of_lt (lt_of_le_of_lt hw h))
    · exact ha
  have hneg : -a_max ≤ (0:K) := neg_nonpos.mpr ha
  by_cases hg : (vel ≤ v_min ∧ a ≤ 0) ∨ (v_max ≤ vel ∧ 0 ≤ a)
  · rw [if_pos hg]
    rcases hg with ⟨hv, _⟩ | ⟨hv, _⟩
    · rw [if_pos (Or.inl ⟨hv, le_refl (0:K)⟩)]
    · rw [if_pos (Or.inr ⟨hv, le_refl (0:K)⟩)]
  · rw [if_neg hg]
    by_cases h1 : a ≤ -a_max
    · rw [if_pos h1]
      have hnv : ¬ vel ≤ v_min := fun hv => hg (Or.inl ⟨hv, h1.trans hneg⟩)
      by_cases hG : (vel ≤ v_min ∧ -a_max ≤ 0) ∨ (v_max ≤ vel ∧ 0 ≤ -a_max)
      · rw [if_pos hG]
        rcases hG with ⟨hv, _⟩ | ⟨_, h0⟩
        · exact absurd hv hnv
        · have hz : a_max = 0 := le_antisymm (neg_nonneg.mp h0) ha
          rw [hz, neg_zero]
      · rw [if_neg hG, if_pos (le_refl (-a_max))]
    · rw [if_neg h1]
      by_cases h2 : (if v_switch < vel then a_max * v_switch / vel else a_max) ≤ a
      · rw [if_pos h2]
        have hnv : ¬ v_max ≤ vel := fun hv => hg (Or.inr ⟨hv, hP.trans h2⟩)
        by_cases hG : (vel ≤ v_min ∧ (if v_switch < vel then a_max * v_switch / vel else a_max) ≤ 0)
            ∨ (v_max ≤ vel ∧ 0 ≤ (if v_switch < vel then a_max * v_switch / vel else a_max))
        · rw [if_pos hG]
          rcases hG with ⟨_, h0⟩ | ⟨hv, _⟩
          · exact (le_antisymm h0 hP).symm
          · exact absurd hv hnv
        · rw [if_neg hG]
          by_cases hm : (if v_switch < vel then a_max * v_switch / vel else a_max) ≤ -a_max
          · rw [if_pos hm]
            linarith
          · rw [if_neg hm,
              if_pos (le_refl (if v_switch < vel then a_max * v_switch / vel else a_max))]
      · rw [if_neg h2, if_neg hg, if_neg h1, if_neg h2]

/-- C5: the claim as stated (for every bound values, the code clamps the
desired acceleration into the interval from -a_max to the positive ceiling)
fails when a_max is negative: at vel = 0, accl = 2, v_switch = 1,
a_max = -1, v_min = -10, v_max = 10 the code returns -1 while clamping into
the interval from -a_max = 1 down to the ceiling -1 yields 1. -/
theorem C5_counterexample :
    accl_constraints (0:ℚ) 2 1 (-1) (-10) 10 ≠ acclSpec (0:ℚ) 2 1 (-1) (-10) 10 := by
  norm_num [accl_constraints, acclSpec]

/-- C5 (amended): provided a_max and v_switch are non-negative,
accl_constraints computes exactly the specified guarded clamp: ceiling
a_max at or below v_switch, a_max*v_switch/vel above it, output forced to
zero at the velocity floor with non-positive demand or at the ceiling with
non-negative demand, and otherwise the demand clamped into the interval
from -a_max to the ceiling. -/
theorem C5_accl_constraints_matches_spec (vel accl v_switch a_max v_min v_max : K)
    (ha : 0 ≤ a_max) (hw : 0 ≤ v_switch) :
    accl_constraints vel accl v_switch a_max v_min v_max
      = acclSpec vel accl v_switch a_max v_min v_max := by
  simp only [accl_constraints, acclSpec]
  have hceq : (if vel ≤ v_switch then a_max else a_max * v_switch / vel)
      = (if v_switch < vel then a_max * v_switch / vel else a_max) := by
    split_ifs with h1 h2 <;> first | rfl | linarith
  rw [hceq]
  have hP : (0:K) ≤ (if v_switch < vel then a_max * v_switch / vel else a_max) := by
    split_ifs with h
    · exact div_nonneg (mul_nonneg ha hw) (le_of_lt (lt_of_le_of_lt hw h))
    · exact ha
  have hneg : -a_max ≤ (0:K) := neg_nonpos.mpr ha
  by_cases hg : (vel ≤ v_min ∧ accl ≤ 0) ∨ (v_max ≤ vel ∧ 0 ≤ accl)
  · rw [if_pos hg, if_pos hg]
  · rw [if_neg hg, if_neg hg]
    by_cases h1 : accl ≤ -a_max
    · rw [if_pos h1, min_eq_left (h1.trans (hneg.trans hP)), max_eq_left h1]
    · rw [if_neg h1]
      by_cases h2 : (if v_switch < vel then a_max * v_switch / vel else a_max) ≤ accl
      · rw [if_pos h2, min_eq_right h2, max_eq_right (hneg.trans hP)]
      · rw [if_neg h2, min_eq_left (le_of_not_le h2), max_eq_right (le_of_not_le h1)]

/-- C5 witness: the amended equivalence instantiated at concrete values. -/
theorem C5_witness :
    (0:ℚ) ≤ 2 ∧ (0:ℚ) ≤ 3 ∧
      accl_constraints (1:ℚ) 5 3 2 (-4) 9 = acclSpec (1:ℚ) 5 3 2 (-4) 9 :=
  ⟨by norm_num, by norm_num,
    C5_accl_constraints_matches_spec 1 5 3 2 (-4) 9 (by norm_num) (by norm_num)⟩

/-- C6: the claim as stated (for every bound values, outside the guard the
desired steering velocity is clamped into the interval from sv_min to
sv_max) fails when sv_min > sv_max: at angle = 0, v = 5, s_min = -1,
s_max = 1, sv_min = 2, sv_max = 0 the code returns 0 while clamping into
the interval from 2 to 0 yields 2. -/
theorem C6_counterexample :
    steering_constraint (0:ℚ) 5 (-1) 1 2 0 ≠ steeringSpec (0:ℚ) 5 (-1) 1 2 0 := by
  norm_num [steering_constraint, steeringSpec]

/-- C6 (amended): provided sv_min ≤ sv_max, steering_constraint computes
exactly the specified guarded clamp: zero at a steering limit being pushed
further past it, otherwise the desired velocity clamped into the interval
from sv_min to sv_max.  (Totality holds by construction: the embedding is
a total function.) -/
theorem C6_steering_constraint_matches_spec (angle v s_min s_max sv_min sv_max : K)
    (hs : sv_min ≤ sv_max) :
    steering_constraint angle v s_min s_max sv_min sv_max
      = steeringSpec angle v s_min s_max sv_min sv_max := by
  simp only [steering_constraint, steeringSpec]
  by_cases hg : (angle ≤ s_min ∧ v ≤ 0) ∨ (s_max ≤ angle ∧ 0 ≤ v)
  · rw [if_pos hg, if_pos hg]
  · rw [if_neg hg, if_neg hg]
    by_cases h1 : v ≤ sv_min
    · rw [if_pos h1, min_eq_left (h1.trans hs), max_eq_left h1]
    · rw [if_neg h1]
      by_cases h2 : sv_max ≤ v
      · rw [if_pos h2, min_eq_right h2, max_eq_right hs]
      · rw [if_neg h2, min_eq_left (le_of_not_le h2), max_eq_right (le_of_not_le h1)]

/-- C6 witness: the amended equivalence instantiated at concrete values. -/
theorem C6_witness :
    (-2:ℚ) ≤ 2 ∧
      steering_constraint (0:ℚ) 5 (-1) 1 (-2) 2 = steeringSpec (0:ℚ) 5 (-1) 1 (-2) 2 :=
  ⟨by norm_num, C6_steering_constraint_matches_spec 0 5 (-1) 1 (-2) 2 (by norm_num)⟩

/-- C8: the claim as stated (idempotence for every current state and every
bounds) fails: with bounds s_min = 0, s_max = 1, sv_min = -2, sv_max = -1
and current angle 0, a desired velocity of 1 clamps to -1, and re-clamping
-1 yields 0 because the angle now sits at its lower limit with a
non-positive demand. -/
theorem C8_counterexample :
    steering_constraint (0:ℚ) (steering_constraint 0 1 0 1 (-2) (-1)) 0 1 (-2) (-1)
      ≠ steering_constraint (0:ℚ) 1 0 1 (-2) (-1) := by
  norm_num [steering_constraint]

/-- C8 (amended): the two clamps are idempotent for every current state
whenever the bounds have their physical signs: sv_min ≤ 0 ≤ sv_max for the
steering clamp, and 0 ≤ a_max with 0 ≤ v_switch for the acceleration
clamp. -/
theorem C8_clamp_idempotent
    (angle v s_min s_max sv_min sv_max vel a v_switch a_max v_min v_max : K) :
    (sv_min ≤ 0 → 0 ≤ sv_max →
      steering_constraint angle (steering_constraint angle v s_min s_max sv_min sv_max)
        s_min s_max sv_min sv_max
        = steering_constraint angle v s_min s_max sv_min sv_max)
    ∧ (0 ≤ a_max → 0 ≤ v_switch →
      accl_constraints vel (accl_constraints vel a v_switch a_max v_min v_max)
        v_switch a_max v_min v_max
        = accl_constraints vel a v_switch a_max v_min v_max) :=
  ⟨fun h1 h2 => steering_constraint_idem angle v s_min s_max sv_min sv_max h1 h2,
   fun ha hw => accl_constraints_idem vel a v_switch a_max v_min v_max ha hw⟩

/-- C8 witness: idempotence instantiated at concrete sign-sane bounds. -/
theorem C8_witness :
    ((-2:ℚ) ≤ 0 ∧ (0:ℚ) ≤ 2 ∧ (0:ℚ) ≤ 3 ∧ (0:ℚ) ≤ 1) ∧
      steering_constraint (0:ℚ) (steering_constraint 0 1 (-1) 1 (-2) 2) (-1) 1 (-2) 2
        = steering_constraint (0:ℚ) 1 (-1) 1 (-2) 2 ∧
      accl_constraints (1:ℚ) (accl_constraints 1 5 1 3 (-4) 9) 1 3 (-4) 9
        = accl_constraints (1:ℚ) 5 1 3 (-4) 9 :=
  ⟨⟨by norm_num, by norm_num, by norm_num, by norm_num⟩,
   (C8_clamp_idempotent (0:ℚ) 1 (-1) 1 (-2) 2 1 5 1 3 (-4) 9).1 (by norm_num) (by norm_num),
   (C8_clamp_idempotent (0:ℚ) 1 (-1) 1 (-2) 2 1 5 1 3 (-4) 9).2 (by norm_num) (by norm_num)⟩

/-- C7: vehicle_dynamics_ks first applies the constraint layer to the raw
control pair and returns exactly [v cos psi, v sin psi, clamped steering
velocity, clamped acceleration, v/(lf+lr) tan delta]. -/
theorem C7_ks_formula (T : Trig K) (x : Fin 5 → K) (u_init : Fin 2 → K)
    (mu C_Sf C_Sr lf lr h m I_z s_min s_max sv_min sv_max v_switch a_max v_min v_max : K) :
    vehicle_dynamics_ks T x u_init mu C_Sf C_Sr lf lr h m I_z
        s_min s_max sv_min sv_max v_switch a_max v_min v_max
      = ![x 3 * T.cos (x 4),
          x 3 * T.sin (x 4),
          steering_constraint (x 2) (u_init 0) s_min s_max sv_min sv_max,
          accl_constraints (x 3) (u_init 1) v_switch a_max v_min v_max,
          x 3 / (lf + lr) * T.tan (x 2)] := by
  funext i
  fin_cases i <;> rfl

/-- State used to refute C3 as literally stated: longitudinal speed
exactly 1/2 (the threshold) but a nonzero slip angle of pi/2. -/
noncomputable def stateC3 : Fin 7 → ℝ := ![0, 0, 0, 1 / 2, 0, 0, Real.pi / 2]

/-- C3: the claim as stated fails.  At speed exactly 0.5 the dynamic model
takes its high-speed branch, whose x-position derivative is
v*cos(slip + yaw); for a state with slip angle pi/2 this is 0 while the
kinematic model yields v*cos(yaw) = 1/2. -/
theorem C3_counterexample :
    vehicle_dynamics_st realTrig stateC3 ![0, 0] 1 1 1 1 1 1 1 1 1 1 1 1 1 1 1 1 0
      ≠ vehicle_dynamics_ks realTrig ![0, 0, 0, 1 / 2, 0] ![0, 0] 1 1 1 1 1 1 1 1 1 1 1 1 1 1 1 1 0 := by
  have hlt : ¬ |stateC3 3| < (1 / 2 : ℝ) := by
    rw [show stateC3 3 = (1 / 2 : ℝ) from rfl,
      abs_of_pos (by norm_num : (0 : ℝ) < 1 / 2)]
    exact lt_irrefl _
  simp only [vehicle_dynamics_st, vehicle_dynamics_ks, if_neg hlt, Matrix.cons_val_zero]
  rw [show stateC3 6 = Real.pi / 2 from rfl, show stateC3 4 = (0 : ℝ) from rfl,
    show stateC3 3 = (1 / 2 : ℝ) from rfl]
  simp [realTrig, Real.cos_pi_div_two]

/-- C3 (amended): at longitudinal speed exactly 1/2 and zero slip angle,
the first four derivative components (x position, y position, steering
angle, speed) of the dynamic single-track model agree exactly with the
kinematic model evaluated on the first five state components with the same
raw control. -/
theorem C3_threshold_consistency (T : Trig K) (x : Fin 7 → K) (u_init : Fin 2 → K)
    (mu C_Sf C_Sr lf lr h m I_z s_min s_max sv_min sv_max v_switch a_max v_min v_max : K)
    (hv : x 3 = 1 / 2) (hb : x 6 = 0) :
    (vehicle_dynamics_st T x u_init mu C_Sf C_Sr lf lr h m I_z
        s_min s_max sv_min sv_max v_switch a_max v_min v_max 0,
      vehicle_dynamics_st T x u_init mu C_Sf C_Sr lf lr h m I_z
        s_min s_max sv_min sv_max v_switch a_max v_min v_max 1,
      vehicle_dynamics_st T x u_init mu C_Sf C_Sr lf lr h m I_z
        s_min s_max sv_min sv_max v_switch a_max v_min v_max 2,
      vehicle_dynamics_st T x u_init mu C_Sf C_Sr lf lr h m I_z
        s_min s_max sv_min sv_max v_switch a_max v_min v_max 3)
      = (vehicle_dynamics_ks T ![x 0, x 1, x 2, x 3, x 4] u_init mu C_Sf C_Sr lf lr h m I_z
          s_min s_max sv_min sv_max v_switch a_max v_min v_max 0,
        vehicle_dynamics_ks T ![x 0, x 1, x 2, x 3, x 4] u_init mu C_Sf C_Sr lf lr h m I_z
          s_min s_max sv_min sv_max v_switch a_max v_min v_max 1,
        vehicle_dynamics_ks T ![x 0, x 1, x 2, x 3, x 4] u_init mu C_Sf C_Sr lf lr h m I_z
          s_min s_max sv_min sv_max v_switch a_max v_min v_max 2,
        vehicle_dynamics_ks T ![x 0, x 1, x 2, x 3, x 4] u_init mu C_Sf C_Sr lf lr h m I_z
          s_min s_max sv_min sv_max v_switch a_max v_min v_max 3) := by
  have hlt : ¬ |x 3| < (1 / 2 : K) := by
    rw [hv, abs_of_pos (by norm_num : (0 : K) < 1 / 2)]
    exact lt_irrefl _
  simp only [vehicle_dynamics_st, vehicle_dynamics_ks, if_neg hlt]
  simp [hb]

/-- C3 witness state: speed at the threshold, zero slip angle. -/
def stateC3w : Fin 7 → ℚ := ![0, 0, 0, 1 / 2, 0, 0, 0]

/-- C3 witness: the amended consistency at a concrete state and control. -/
theorem C3_witness :
    stateC3w 3 = 1 / 2 ∧ stateC3w 6 = 0 ∧
      (vehicle_dynamics_st ratTrig stateC3w ![1, 1] 1 1 1 1 1 1 1 1 1 1 1 1 1 1 1 1 0,
        vehicle_dynamics_st ratTrig stateC3w ![1, 1] 1 1 1 1 1 1 1 1 1 1 1 1 1 1 1 1 1,
        vehicle_dynamics_st ratTrig stateC3w ![1, 1] 1 1 1 1 1 1 1 1 1 1 1 1 1 1 1 1 2,
        vehicle_dynamics_st ratTrig stateC3w ![1, 1] 1 1 1 1 1 1 1 1 1 1 1 1 1 1 1 1 3)
        = (vehicle_dynamics_ks ratTrig
            ![stateC3w 0, stateC3w 1, stateC3w 2, stateC3w 3, stateC3w 4]
            ![1, 1] 1 1 1 1 1 1 1 1 1 1 1 1 1 1 1 1 0,
          vehicle_dynamics_ks ratTrig
            ![stateC3w 0, stateC3w 1, stateC3w 2, stateC3w 3, stateC3w 4]
            ![1, 1] 1 1 1 1 1 1 1 1 1 1 1 1 1 1 1 1 1,
          vehicle_dynamics_ks ratTrig
            ![stateC3w 0, stateC3w 1, stateC3w 2, stateC3w 3, stateC3w 4]
            ![1, 1] 1 1 1 1 1 1 1 1 1 1 1 1 1 1 1 1 2,
          vehicle_dynamics_ks ratTrig
            ![stateC3w 0, stateC3w 1, stateC3w 2, stateC3w 3, stateC3w 4]
            ![1, 1] 1 1 1 1 1 1 1 1 1 1 1 1 1 1 1 1 3) :=
  ⟨rfl, rfl,
    C3_threshold_consistency ratTrig stateC3w ![1, 1] 1 1 1 1 1 1 1 1 1 1 1 1 1 1 1 1 rfl rfl⟩

/-- State used to refute C4 as literally stated: steering angle pi/2 and
speed 0, so the low-speed branch divides by lwb*cos(x[2])**2 = 0 although
the parameters are not degenerate. -/
noncomputable def stateC4 : Fin 7 → ℝ := ![0, 0, Real.pi / 2, 0, 0, 0, 0]

/-- C4: the claim as stated fails, in two independent ways, both with the
non-degenerate parameters lf = lr = 1, m = 1, I = 1.  (i) At steering
angle pi/2 and speed 0 (v_switch = 1) the low-speed branch divides by
(lf+lr)*cos(x[2])**2 = 0.  (ii) At the all-zero state with v_switch = -1
(so cos(x[2]) = 1 ≠ 0) the acceleration constraint executed before the
speed branch divides by the speed x[3] = 0 in its derating term
a_max*v_switch/x[3] — a division by x[3] outside the |x[3]| >= 0.5
branch. -/
theorem C4_counterexample :
    (((1 : ℝ) + 1 ≠ 0 ∧ (1 : ℝ) ≠ 0) ∧
      (0 : ℝ) ∈ st_denominators realTrig stateC4 1 1 1 1) ∧
    (((1 : ℝ) + 1 ≠ 0 ∧ (1 : ℝ) ≠ 0 ∧ realTrig.cos ((fun _ => (0 : ℝ)) 2) ≠ 0) ∧
      (0 : ℝ) ∈ st_denominators realTrig (fun _ => (0 : ℝ)) 1 1 1 (-1)) := by
  refine ⟨⟨⟨by norm_num, by norm_num⟩, ?_⟩,
    ⟨⟨by norm_num, by norm_num, by simp [realTrig]⟩, ?_⟩⟩
  · have hlt : |stateC4 3| < (1 / 2 : ℝ) := by
      rw [show stateC4 3 = (0 : ℝ) from rfl]
      norm_num
    have hns : ¬ (1 : ℝ) < stateC4 3 := by
      rw [show stateC4 3 = (0 : ℝ) from rfl]
      norm_num
    simp only [st_denominators, if_pos hlt, if_neg hns, List.nil_append]
    rw [show stateC4 2 = Real.pi / 2 from rfl]
    simp [realTrig, Real.cos_pi_div_two]
  · have hvs : (-1 : ℝ) < (fun _ => (0 : ℝ)) 3 := by norm_num
    simp [st_denominators, if_pos hvs]

/-- C4 (amended): in vehicle_dynamics_st the divisions by the speed x[3]
occur in the branch taken when |x[3]| >= 0.5 and, additionally, in the
acceleration constraint's derating term a_max*v_switch/x[3], executed (in
either branch) exactly when x[3] > v_switch; for every input whose
parameters satisfy lf+lr ≠ 0, m ≠ 0, I ≠ 0 and v_switch ≥ 0 and whose
steering angle additionally has cos(x[2]) ≠ 0, no denominator evaluated
on the executed path of vehicle_dynamics_st is zero. -/
theorem C4_no_division_by_zero (T : Trig K) (x : Fin 7 → K) (lf lr m I_z v_switch : K)
    (hl : lf + lr ≠ 0) (hm : m ≠ 0) (hI : I_z ≠ 0) (hc : T.cos (x 2) ≠ 0)
    (hw : 0 ≤ v_switch) :
    ∀ d ∈ st_denominators T x lf lr I_z v_switch, d ≠ 0 := by
  have hpre : ∀ e, e ∈ (if v_switch < x 3 then [x 3] else ([] : List K)) → e ≠ 0 := by
    intro e he
    by_cases hvs : v_switch < x 3
    · rw [if_pos hvs, List.mem_singleton] at he
      rw [he]
      exact ne_of_gt (lt_of_le_of_lt hw hvs)
    · rw [if_neg hvs] at he
      exact absurd he (List.not_mem_nil e)
  intro d hd
  simp only [st_denominators, List.mem_append] at hd
  rcases hd with hd | hd
  · exact hpre d hd
  · by_cases h3 : |x 3| < 1 / 2
    · rw [if_pos h3, List.mem_append] at hd
      rcases hd with hd | hd
      · exact hpre d hd
      · simp only [List.mem_cons, List.not_mem_nil, or_false] at hd
        rcases hd with rfl | rfl | rfl
        · exact hl
        · exact hl
        · exact mul_ne_zero hl (pow_ne_zero 2 hc)
    · have hx3 : x 3 ≠ 0 := by
        intro h0
        exact h3 (by rw [h0, abs_zero]; norm_num)
      have hl' : lr + lf ≠ 0 := by rwa [add_comm]
      rw [if_neg h3] at hd
      simp only [List.mem_cons, List.not_mem_nil, or_false] at hd
      rcases hd with rfl | rfl | rfl | rfl | rfl | rfl
      · exact mul_ne_zero (mul_ne_zero hx3 hI) hl'
      · exact mul_ne_zero hI hl'
      · exact mul_ne_zero hI hl'
      · exact mul_ne_zero (pow_ne_zero 2 hx3) hl'
      · exact mul_ne_zero hx3 hl'
      · exact mul_ne_zero hx3 hl'

/-- C4 witness: the amended statement at a concrete low-speed state with
non-degenerate parameters, non-negative switching velocity and nonzero
cosine of the steering angle. -/
theorem C4_witness :
    ((1 : ℚ) + 1 ≠ 0 ∧ (1 : ℚ) ≠ 0 ∧ (1 : ℚ) ≠ 0
        ∧ ratTrig.cos ((fun _ => 0 : Fin 7 → ℚ) 2) ≠ 0 ∧ (0 : ℚ) ≤ 1) ∧
      ∀ d ∈ st_denominators ratTrig (fun _ => 0) 1 1 1 1, d ≠ 0 :=
  ⟨⟨by norm_num, by norm_num, by norm_num, by norm_num [ratTrig], by norm_num⟩,
    C4_no_division_by_zero ratTrig (fun _ => 0) 1 1 1 1 1 (by norm_num) (by norm_num)
      (by norm_num) (by norm_num [ratTrig]) (by norm_num)⟩

/-- Embedding of pid (dynamic_models.py lines 635-678): the basic
speed/steer controller.  Returns (accl, sv) exactly as the Python tuple. -/
def pid (speed steer current_speed current_steer max_sv max_a max_v min_v : K) : K × K :=
  let steer_diff := steer - current_steer
  let sv := if 1 / 10000 < |steer_diff| then steer_diff / |steer_diff| * max_sv else 0
  let vel_diff := speed - current_speed
  let accl :=
    if 0 < current_speed then
      if 0 < vel_diff then 10 * max_a / max_v * vel_diff
      else 10 * max_a / (-min_v) * vel_diff
    else
      if 0 < vel_diff then 2 * max_a / max_v * vel_diff
      else 2 * max_a / (-min_v) * vel_diff
  (accl, sv)

/-- Modelled from the spec words for the controller: steering velocity is
max_sv times the sign of the steering error outside the 1e-4 deadband and
zero inside it; acceleration is the speed error times a gain selected by
the sign of the current speed and of the speed error. -/
def pidSpec (speed steer current_speed current_steer max_sv max_a max_v min_v : K) : K × K :=
  let steer_diff := steer - current_steer
  let sv :=
    if 1 / 10000 < |steer_diff| then (if 0 < steer_diff then max_sv else -max_sv) else 0
  let vel_diff := speed - current_speed
  let kp :=
    if 0 < current_speed then
      if 0 < vel_diff then 10 * max_a / max_v else 10 * max_a / (-min_v)
    else
      if 0 < vel_diff then 2 * max_a / max_v else 2 * max_a / (-min_v)
  (kp * vel_diff, sv)

/-- C9: the controller computes exactly the claimed law: bang-style
steering (max_sv times the sign of the error outside the 1e-4 deadband,
zero inside) and a proportional acceleration whose gain is
10*max_a/max_v, 10*max_a/(-min_v), 2*max_a/max_v or 2*max_a/(-min_v)
according to the signs of the current speed and of the speed error. -/
theorem C9_pid_matches_spec (speed steer current_speed current_steer max_sv max_a max_v min_v : K) :
    pid speed steer current_speed current_steer max_sv max_a max_v min_v
      = pidSpec speed steer current_speed current_steer max_sv max_a max_v min_v := by
  simp only [pid, pidSpec, Prod.mk.injEq]
  constructor
  · split_ifs <;> rfl
  · by_cases hd : 1 / 10000 < |steer - current_steer|
    · rw [if_pos hd, if_pos hd]
      have hne : steer - current_steer ≠ 0 := by
        intro h0
        rw [h0, abs_zero] at hd
        exact absurd hd (by norm_num)
      by_cases hpos : 0 < steer - current_steer
      · rw [if_pos hpos, abs_of_pos hpos, div_self hne, one_mul]
      · have hneg : steer - current_steer < 0 := lt_of_le_of_ne (not_lt.mp hpos) hne
        rw [if_neg hpos, abs_of_neg hneg, div_neg, div_self hne, neg_one_mul]
    · rw [if_neg hd, if_neg hd]

/-- C10: at current speed exactly zero the controller takes the reverse
branch, so the acceleration uses the reverse gains 2*max_a/max_v (speed
error positive) and 2*max_a/(-min_v) (speed error non-positive). -/
theorem C10_pid_zero_speed_reverse_gains
    (speed steer current_steer max_sv max_a max_v min_v : K) :
    (pid speed steer 0 current_steer max_sv max_a max_v min_v).1
      = (if 0 < speed then 2 * max_a / max_v else 2 * max_a / (-min_v)) * speed := by
  simp only [pid, if_neg (lt_irrefl (0 : K)), sub_zero]
  split_ifs <;> rfl

/-- Contact-patch speed of the left-front wheel in vehicle_dynamics_mb
(source line 378); a is the front axle distance lf = params[14], T_f the
front track width = params[24]. -/
def mb_u_w_lf (T : Trig K) (x : Fin 29 → K) (T_f a : K) : K :=
  (x 3 + 1 / 2 * T_f * x 5) * T.cos (x 2) + (x 10 + a * x 5) * T.sin (x 2)

/-- Contact-patch speed of the right-front wheel (source line 379). -/
def mb_u_w_rf (T : Trig K) (x : Fin 29 → K) (T_f a : K) : K :=
  (x 3 - 1 / 2 * T_f * x 5) * T.cos (x 2) + (x 10 + a * x 5) * T.sin (x 2)

/-- Contact-patch speed of the left-rear wheel (source line 380); T_r is
the rear track width = params[25]. -/
def mb_u_w_lr (x : Fin 29 → K) (T_r : K) : K :=
  x 3 + 1 / 2 * T_r * x 5

/-- Contact-patch speed of the right-rear wheel (source line 381). -/
def mb_u_w_rr (x : Fin 29 → K) (T_r : K) : K :=
  x 3 - 1 / 2 * T_r * x 5

/-- The clamp applied to each wheel contact speed (source lines 383-394):
negative wheel ground speed is physically meaningless and is zeroed. -/
def clampWheelSpeed (v : K) : K :=
  if v < 0 then 0 else v

/-- Longitudinal slip of the left-rear wheel (source lines 397-406): zero
below the 0.1 speed threshold, otherwise 1 - R_w*x[25]/u_w_lr with the
clamped contact speed in the denominator. -/
def mb_s_lr (x : Fin 29 → K) (R_w T_r : K) : K :=
  if |x 3| < 1 / 10 then 0
  else 1 - R_w * x 25 / clampWheelSpeed (mb_u_w_lr x T_r)

/-- State witnessing the C1 division by zero: speed 1 and yaw rate -1/2. -/
def stateC1 : Fin 29 → ℚ :=
  fun i => if i = 3 then 1 else if i = 5 then -(1 / 2) else 0

/-- C1: with rear track width T_r = 4 and the above state (speed 1, well
above the 0.1 threshold, yaw rate -1/2) the left-rear contact speed is
exactly 0 after the clamp, so the slip formula divides by zero although
the parameters (wheel radius 1, track width 4) are not degenerate.  In
the Lean embedding the total field division then returns the junk value
making s_lr equal to 1 - R_w*x[25]/0; in Python this is a runtime
division-by-zero, not a derivative vector. -/
theorem C1_mb_slip_divides_by_zero :
    ¬ |stateC1 3| < 1 / 10 ∧
      mb_u_w_lr stateC1 4 = 0 ∧
      clampWheelSpeed (mb_u_w_lr stateC1 4) = 0 ∧
      mb_s_lr stateC1 1 4 = 1 - 1 * stateC1 25 / clampWheelSpeed (mb_u_w_lr stateC1 4) ∧
      (4 : ℚ) ≠ 0 ∧ (1 : ℚ) ≠ 0 := by
  refine ⟨?_, ?_, ?_, ?_, by norm_num, by norm_num⟩
  · rw [show stateC1 3 = (1 : ℚ) from rfl]
    norm_num
  · rw [show mb_u_w_lr stateC1 4 = 1 + 1 / 2 * 4 * -(1 / 2) from rfl]
    norm_num
  · rw [show mb_u_w_lr stateC1 4 = 1 + 1 / 2 * 4 * -(1 / 2) from rfl]
    norm_num [clampWheelSpeed]
  · rw [mb_s_lr, if_neg]
    rw [show stateC1 3 = (1 : ℚ) from rfl]
    norm_num

/-- The anti-spin guard of vehicle_dynamics_mb (source lines 622-626),
with the in-place mutation of the Python numpy arrays modelled by explicit
state passing: the first component of the result is the content of the
caller's state array x after the call, the second the derivative vector f.
Python:
  for iState in range(23, 27):
      if x[iState] < 0.0:
          x[iState] = 0.0
          f[iState] = 0.0 -/
def antiSpinStep (i : Fin 29) (xf : (Fin 29 → K) × (Fin 29 → K)) :
    (Fin 29 → K) × (Fin 29 → K) :=
  if xf.1 i < 0 then (Function.update xf.1 i 0, Function.update xf.2 i 0) else xf

/-- The guard loop over wheel-spin indices 23, 24, 25, 26 in order. -/
def antiSpinGuard (x f : Fin 29 → K) : (Fin 29 → K) × (Fin 29 → K) :=
  antiSpinStep 26 (antiSpinStep 25 (antiSpinStep 24 (antiSpinStep 23 (x, f))))

/-- State with a negative left-front wheel-spin entry x[23] = -1. -/
def stateC2 : Fin 29 → ℚ :=
  fun i => if i = 23 then -1 else 0

/-- C2: the anti-spin guard writes into the caller's state array, not only
into the returned derivative: with x[23] = -1 on input, the state array
after the call holds 0 at index 23 (and the derivative entry is zeroed
too), so the input is not treated as read-only. -/
theorem C2_guard_mutates_state :
    (antiSpinGuard stateC2 (fun _ => 0)).1 23 = 0 ∧
      stateC2 23 = -1 ∧
      (antiSpinGuard stateC2 (fun _ => 0)).2 23 = 0 := by
  refine ⟨?_, rfl, ?_⟩ <;> decide

end DynamicModels
